import Mathlib

/-!
# Verification of the apart-hotel booking/calendar logic

Shallow embedding of the availability, calendar-status, booking-creation and
dashboard-KPI logic of the property-management application (`app.py`).

Dates are modelled as integers (day numbers): the Python code works with
`datetime.date`, which is totally ordered and supports day arithmetic, and the
database stores ISO strings whose lexicographic order agrees with the date
order, so the integer model is faithful for every comparison and difference
the code performs.  Money amounts are modelled as rationals; SQL `NULL` /
Python `None` as `Option`.
-/

namespace Moksli05

/-- A row of the `bookings` table, restricted to the columns the verified
logic reads: `room_id`, `check_in_date`, `check_out_date`, `status`,
`total_amount`.  `status` is `none` for SQL NULL. -/
structure Booking where
  room_id : Int
  check_in : Int
  check_out : Int
  status : Option String
  total_amount : Option ℚ
deriving Repr, DecidableEq

/-- A row of the `rooms` table: id, display name (`room_number`) and optional
residential complex. -/
structure Room where
  id : Int
  room_number : String
  residential_complex : Option String
deriving Repr, DecidableEq

/-- The `room_statuses` table as a finite-support map from (room_id, date) to
the override status string; `none` means no row exists for that key. -/
abbrev StatusTable := Int × Int → Option String

/-- `calendar_view`: which dates a booking occupies in the booking map.
The code marks `check_in ≤ d < check_out`; if `check_in >= check_out`
(zero nights or invalid range) it marks only the check-in date. -/
def bookingCoversDate (b : Booking) (d : Int) : Bool :=
  if b.check_in ≥ b.check_out then d == b.check_in
  else decide (b.check_in ≤ d) && decide (d < b.check_out)

/-- One step of `calendar_view`'s `booking_map` population: dict assignment,
so a later booking overwrites an earlier one on the same (room, date) key. -/
def insertBooking (m : Int × Int → Option Booking) (b : Booking) :
    Int × Int → Option Booking :=
  fun k => if k.1 = b.room_id ∧ bookingCoversDate b k.2 = true then some b else m k

/-- `calendar_view`'s `booking_map`, built by iterating over the fetched
booking rows in order. -/
def buildBookingMap (bs : List Booking) : Int × Int → Option Booking :=
  bs.foldl insertBooking (fun _ => none)

/-- The six occupancy states recognised by the calendar. -/
def occupancyStates : List String :=
  ["occupied", "vacant", "booked", "ready", "cleaning", "hourly"]

/-- Python `b.get("status") or "booked"`: both `None` and the empty string are
falsy and fall back to `"booked"`. -/
def statusOrBooked (s : Option String) : String :=
  match s with
  | none => "booked"
  | some t => if t = "" then "booked" else t

/-- `calendar_view`'s per-cell status resolution, in the code's own order:
look up the booking map first, then inside each branch check the
`room_statuses` override, the six-state whitelist, or the past/future
default. -/
def resolveStatus (statusMap : StatusTable) (bookingMap : Int × Int → Option Booking)
    (roomId d today : Int) : String :=
  match bookingMap (roomId, d) with
  | some b =>
      match statusMap (roomId, d) with
      | some s => s
      | none =>
          let st := statusOrBooked b.status
          if st ∈ occupancyStates then st else "booked"
  | none =>
      match statusMap (roomId, d) with
      | some s => s
      | none => if d < today then "vacant" else "ready"

/-- The claim's case split as written: (1) an override wins outright;
(2) else the covering booking's status, whitelisted to the six occupancy
states with fallback `"booked"`; (3) else `"vacant"` strictly before today,
`"ready"` otherwise.  Stated independently of the code's branch order, to be
compared with `resolveStatus`. -/
def calendarStatusClaim (statusMap : StatusTable) (bookingMap : Int × Int → Option Booking)
    (roomId d today : Int) : String :=
  match statusMap (roomId, d) with
  | some s => s
  | none =>
      match bookingMap (roomId, d) with
      | some b =>
          let st := statusOrBooked b.status
          if st ∈ occupancyStates then st else "booked"
      | none => if d < today then "vacant" else "ready"

/-- The dates marked as booked by `add_booking`/`edit_booking`: every date of
the range excluding check-out (`while current < end`); if
`check_in >= check_out` only the check-in date. -/
def markDates (ci co : Int) : List Int :=
  if ci ≥ co then [ci]
  else (List.range (co - ci).toNat).map (fun i : ℕ => ci + (i : Int))

/-- The dates a valid booking (check_in ≤ check_out) occupies:
`check_in ≤ d < check_out`, or exactly `d = check_in` when the booking is
zero-length. -/
abbrev inBookingRange (ci co d : Int) : Prop :=
  (ci < co ∧ ci ≤ d ∧ d < co) ∨ (ci = co ∧ d = ci)

/-- `add_booking`'s upsert: `INSERT ... ON CONFLICT(room_id, date) DO UPDATE
SET status = 'booked'` — overwrites an existing row. -/
def upsertOverwrite (st : StatusTable) (roomId d : Int) : StatusTable :=
  fun k => if k = (roomId, d) then some "booked" else st k

/-- `edit_booking`'s upsert: `INSERT ... ON CONFLICT(room_id, date) DO
NOTHING` — keeps an existing row untouched. -/
def upsertKeep (st : StatusTable) (roomId d : Int) : StatusTable :=
  fun k =>
    if k = (roomId, d) then
      match st k with
      | some s => some s
      | none => some "booked"
    else st k

/-- The create path's status side effect over the whole booking range. -/
def markBookedCreate (st : StatusTable) (roomId ci co : Int) : StatusTable :=
  (markDates ci co).foldl (fun s d => upsertOverwrite s roomId d) st

/-- The edit path's status side effect over the whole booking range. -/
def markBookedEdit (st : StatusTable) (roomId ci co : Int) : StatusTable :=
  (markDates ci co).foldl (fun s d => upsertKeep s roomId d) st

/-- The booking row assembled by `add_booking`'s POST handler (the fields the
verified logic depends on). -/
structure NewBooking where
  check_in : Int
  check_out : Int
  status : String
  total_amount : Option ℚ
deriving Repr, DecidableEq

/-- `add_booking`'s POST handler: reject when `nights < 0`; otherwise store
`total_amount = rate * nights` when a per-night rate was submitted and NULL
otherwise, insert the booking with the deposit status, and mark the booked
range in `room_statuses` (overwriting). Returns the inserted row and the
updated status table, or `none` when the request is rejected. -/
def add_booking (st : StatusTable) (roomId ci co : Int) (rate : Option ℚ)
    (depositStatus : String) : Option (NewBooking × StatusTable) :=
  let nights := co - ci
  if nights < 0 then none
  else
    let total : Option ℚ := rate.map (fun r => r * (nights : ℚ))
    some ({ check_in := ci, check_out := co, status := depositStatus,
            total_amount := total },
          markBookedCreate st roomId ci co)

/-- The residential-complex filter of the room queries: no filter accepts
every room, a filter accepts rooms whose `residential_complex` equals it. -/
def complexMatches (cf : Option String) (r : Room) : Bool :=
  match cf with
  | none => true
  | some c => r.residential_complex == some c

/-- The SQL conflict condition of `calendar_view`'s dated free-room search:
`NOT (date(check_out_date) <= date(start) OR date(check_in_date) >= date(end))`. -/
def bookingConflicts (b : Booking) (s e : Int) : Bool :=
  !(decide (b.check_out ≤ s) || decide (b.check_in ≥ e))

/-- `calendar_view`'s dated free-room search.  The query runs only under
`if start_date_obj <= end_date_obj:` — with a reversed range the branch is
skipped and `available_rooms` keeps its initial `None` (modelled as `none`).
The input room list stands for the `rooms` table scan in `ORDER BY
room_number` order; the result keeps the rooms, optionally restricted to a
residential complex, whose id is in no conflicting booking row. -/
def freeRoomSearch (rooms : List Room) (bookings : List Booking)
    (cf : Option String) (s e : Int) : Option (List Room) :=
  if s ≤ e then
    some (rooms.filter (fun r =>
      complexMatches cf r &&
        !(bookings.any (fun b => b.room_id == r.id && bookingConflicts b s e))))
  else none

/-- Claim C4's conflict predicate as written:
`checkin < E+1 AND checkout > S` over the inclusive range `[S, E]`. -/
def conflictClaimC4 (b : Booking) (s e : Int) : Bool :=
  decide (b.check_in < e + 1) && decide (b.check_out > s)

/-- Claim C4's free-room result as written: the rooms having no booking that
satisfies `conflictClaimC4`.  To be compared with `freeRoomSearch`. -/
def freeRoomsClaimC4 (rooms : List Room) (bookings : List Booking)
    (s e : Int) : List Room :=
  rooms.filter (fun r =>
    !(bookings.any (fun b => b.room_id == r.id && conflictClaimC4 b s e)))

/-- The dashboard's per-room aggregate record. -/
structure PerRoomAgg where
  nights_sold : Int
  revenue : ℚ
  booking_count : Int
deriving Repr, DecidableEq

/-- The dashboard's per-room loop body for one fetched booking row: clamp
the booking to `[start, end+1)`, skip a non-positive overlap, otherwise add
the overlap nights, one booking, and the prorated revenue
`total_amount / nights_total * nights_overlap` (only when `nights_total > 0`
and `total_amount` is not NULL). -/
def aggBooking (agg : PerRoomAgg) (ci co : Int) (amt : Option ℚ)
    (s e : Int) : PerRoomAgg :=
  if min co (e + 1) - max ci s ≤ 0 then agg
  else
    { nights_sold := agg.nights_sold + (min co (e + 1) - max ci s)
      booking_count := agg.booking_count + 1
      revenue :=
        match amt with
        | some a =>
            if 0 < co - ci then
              agg.revenue
                + a / ((co - ci : Int) : ℚ) * ((min co (e + 1) - max ci s : Int) : ℚ)
            else agg.revenue
        | none => agg.revenue }

/-- The dashboard's sold-nights contribution of one fetched booking row:
the clamped overlap `min(check_out, end+1) − max(check_in, start)`, counted
only when positive. -/
def soldNightsDelta (ci co s e : Int) : Int :=
  if 0 < min co (e + 1) - max ci s then min co (e + 1) - max ci s else 0

/-- Dashboard KPI: occupancy percentage with the zero-denominator guard
(`sold / available * 100` when `available > 0`, else 0). -/
def occupancyPct (soldNights nightsAvail : ℚ) : ℚ :=
  if 0 < nightsAvail then soldNights / nightsAvail * 100 else 0

/-- Dashboard KPI: average daily rate with the zero-denominator guard. -/
def adr (totalRevenue soldNights : ℚ) : ℚ :=
  if 0 < soldNights then totalRevenue / soldNights else 0

/-- Dashboard KPI: revenue per available room-night with the guard. -/
def revpar (totalRevenue nightsAvail : ℚ) : ℚ :=
  if 0 < nightsAvail then totalRevenue / nightsAvail else 0

/-- Dashboard: available nights = room count × days in the period. -/
def nightsAvailable (roomsCount periodDays : Int) : Int :=
  roomsCount * periodDays

/-- The dashboard's range normalisation: `if start_date > end_date:
start_date, end_date = end_date, start_date` — a reversed range is silently
swapped. -/
def dashboardNormalizeRange (s e : Int) : Int × Int :=
  if s > e then (e, s) else (s, e)

/-- A sample `room_statuses` table holding one pre-existing override row,
`(room 1, day 3) ↦ "occupied"`. -/
def stW : StatusTable :=
  fun k => if k = ((1 : Int), (3 : Int)) then some "occupied" else none

/-- A sample room. -/
def roomW : Room := ⟨1, "A1", none⟩

/-- A sample booking on days 2–4 of room 1. -/
def bookingW : Booking := ⟨1, 2, 4, some "booked", none⟩

/-- A booking whose check-in equals the free-room search's end date 5. -/
def bEdgeW : Booking := ⟨1, 5, 10, some "booked", none⟩

/-- A zero-length booking on day 5 of room 1. -/
def zeroW : Booking := ⟨1, 5, 5, some "booked", none⟩

end Moksli05

namespace Moksli05

lemma foldl_insertBooking_eq_some (bs : List Booking) (m : Int × Int → Option Booking)
    (k : Int × Int) (b : Booking) (h : bs.foldl insertBooking m k = some b) :
    (k.1 = b.room_id ∧ bookingCoversDate b k.2 = true) ∨ m k = some b := by
  induction bs generalizing m with
  | nil => exact Or.inr h
  | cons hd tl ih =>
    simp only [List.foldl_cons] at h
    rcases ih (insertBooking m hd) h with hc | hm
    · exact Or.inl hc
    · unfold insertBooking at hm
      by_cases hcond : k.1 = hd.room_id ∧ bookingCoversDate hd k.2 = true
      · simp only [if_pos hcond, Option.some.injEq] at hm
        subst hm
        exact Or.inl hcond
      · simp only [if_neg hcond] at hm
        exact Or.inr hm

lemma foldl_insertBooking_isSome (bs : List Booking) (m : Int × Int → Option Booking)
    (k : Int × Int)
    (h : (∃ b ∈ bs, k.1 = b.room_id ∧ bookingCoversDate b k.2 = true) ∨ ∃ b, m k = some b) :
    ∃ b, bs.foldl insertBooking m k = some b := by
  induction bs generalizing m with
  | nil =>
    rcases h with ⟨b, hb, _⟩ | h
    · cases hb
    · exact h
  | cons hd tl ih =>
    simp only [List.foldl_cons]
    apply ih
    rcases h with ⟨b, hb, hcov⟩ | ⟨b, hm⟩
    · rcases List.mem_cons.mp hb with rfl | htl
      · right
        exact ⟨b, by simp [insertBooking, hcov.1, hcov.2]⟩
      · left
        exact ⟨b, htl, hcov⟩
    · right
      unfold insertBooking
      by_cases hcond : k.1 = hd.room_id ∧ bookingCoversDate hd k.2 = true
      · exact ⟨hd, by simp [hcond]⟩
      · exact ⟨b, by simp [hcond, hm]⟩

/-- C1: the effective status of a calendar cell follows exactly the claim's
case split: a `room_statuses` override wins outright; otherwise a covering
booking's own status (whitelisted to the six occupancy states, defaulting to
`"booked"`); otherwise `"vacant"` strictly before today and `"ready"` from
today on.  Moreover the booking map contains exactly bookings covering the
date (`check_in ≤ d < check_out`, or `d = check_in` when
`check_in ≥ check_out`) for that room. -/
theorem calendar_status_resolution (sm : StatusTable) (bs : List Booking) (r d today : Int) :
    resolveStatus sm (buildBookingMap bs) r d today
      = calendarStatusClaim sm (buildBookingMap bs) r d today
    ∧ (∀ b, buildBookingMap bs (r, d) = some b →
        b.room_id = r ∧ bookingCoversDate b d = true)
    ∧ ((∃ b ∈ bs, b.room_id = r ∧ bookingCoversDate b d = true) →
        ∃ b, buildBookingMap bs (r, d) = some b) := by
  refine ⟨?_, ?_, ?_⟩
  · cases hb : buildBookingMap bs (r, d) <;> cases hs : sm (r, d) <;>
      simp [resolveStatus, calendarStatusClaim, hb, hs]
  · intro b hb
    rcases foldl_insertBooking_eq_some bs (fun _ => none) (r, d) b hb with hc | hm
    · exact ⟨hc.1.symm, hc.2⟩
    · cases hm
  · intro ⟨b, hmem, hroom, hcov⟩
    exact foldl_insertBooking_isSome bs (fun _ => none) (r, d)
      (Or.inl ⟨b, hmem, hroom.symm, hcov⟩)

/-- Witness for C1 at a concrete input: a booking with deposit status
`"paid"` on the cell, no override. -/
theorem calendar_status_resolution_witness :
    resolveStatus (fun _ => none) (buildBookingMap [⟨1, 3, 6, some "paid", none⟩]) 1 5 4
      = calendarStatusClaim (fun _ => none) (buildBookingMap [⟨1, 3, 6, some "paid", none⟩]) 1 5 4 :=
  (calendar_status_resolution (fun _ => none) [⟨1, 3, 6, some "paid", none⟩] 1 5 4).1

lemma mem_markDates (ci co d : Int) (h : ci ≤ co) :
    d ∈ markDates ci co ↔ inBookingRange ci co d := by
  unfold markDates
  rcases lt_or_eq_of_le h with hlt | heq
  · rw [if_neg (by omega)]
    simp only [List.mem_map, List.mem_range]
    constructor
    · rintro ⟨i, hi, rfl⟩
      left
      omega
    · rintro (⟨h1, h2, h3⟩ | ⟨h1, h2⟩)
      · exact ⟨(d - ci).toNat, by omega, by omega⟩
      · omega
  · subst heq
    rw [if_pos le_rfl]
    simp only [List.mem_singleton, inBookingRange]
    simp

lemma foldl_upsertOverwrite_apply (ds : List Int) (st : StatusTable) (roomId : Int)
    (k : Int × Int) :
    (ds.foldl (fun s d => upsertOverwrite s roomId d) st) k
      = if k.1 = roomId ∧ k.2 ∈ ds then some "booked" else st k := by
  induction ds generalizing st with
  | nil => simp
  | cons hd tl ih =>
    simp only [List.foldl_cons, ih, List.mem_cons]
    by_cases h1 : k.1 = roomId
    · by_cases h2 : k.2 ∈ tl
      · simp [h1, h2]
      · by_cases h3 : k.2 = hd
        · simp [upsertOverwrite, h1, h2, h3, Prod.ext_iff]
        · simp [upsertOverwrite, h1, h2, h3, Prod.ext_iff]
    · simp [upsertOverwrite, h1, Prod.ext_iff]

lemma foldl_upsertKeep_apply (ds : List Int) (st : StatusTable) (roomId : Int)
    (k : Int × Int) :
    (ds.foldl (fun s d => upsertKeep s roomId d) st) k
      = if k.1 = roomId ∧ k.2 ∈ ds ∧ st k = none then some "booked" else st k := by
  induction ds generalizing st with
  | nil => simp
  | cons hd tl ih =>
    simp only [List.foldl_cons, ih, List.mem_cons]
    by_cases hk : k = (roomId, hd)
    · subst hk
      cases hst : st (roomId, hd) with
      | some s => simp [upsertKeep, hst]
      | none => simp [upsertKeep, hst]
    · have hkeep : upsertKeep st roomId hd k = st k := by
        simp [upsertKeep, hk]
      rw [hkeep]
      have hne : ¬(k.1 = roomId ∧ k.2 = hd) := by
        intro ⟨ha, hb⟩
        exact hk (Prod.ext ha hb)
      by_cases h1 : k.1 = roomId
      · have h3 : k.2 ≠ hd := fun hh => hne ⟨h1, hh⟩
        simp [h1, h3]
      · simp [h1]

/-- C2: for a booking created through `add_booking` with `check_in ≤
check_out`, the set of `(room, date)` keys upserted to `"booked"` is exactly
`{check_in, …, check_out − 1}` (just `{check_in}` when the range is
zero-length), and each upsert overwrites any pre-existing row. -/
theorem add_booking_marks_exact_range (st : StatusTable) (roomId ci co : Int)
    (rate : Option ℚ) (ds : String) (r d : Int) (h : ci ≤ co) :
    ∃ res, add_booking st roomId ci co rate ds = some res ∧
      res.2 (r, d)
        = if r = roomId ∧ inBookingRange ci co d then some "booked" else st (r, d) := by
  refine ⟨({ check_in := ci, check_out := co, status := ds,
             total_amount := rate.map (fun x => x * ((co - ci : Int) : ℚ)) },
           markBookedCreate st roomId ci co), ?_, ?_⟩
  · unfold add_booking
    rw [if_neg (by omega)]
  · simp only [markBookedCreate, foldl_upsertOverwrite_apply,
      mem_markDates ci co d h]

/-- Witness for C2: creating a booking over days 3–5 overwrites the
pre-existing `"occupied"` override on day 3. -/
theorem add_booking_marks_exact_range_witness :
    ∃ res, add_booking stW 1 3 5 none "paid" = some res ∧
      res.2 (1, 3)
        = if (1 : Int) = 1 ∧ inBookingRange 3 5 3 then some "booked" else stW (1, 3) :=
  add_booking_marks_exact_range stW 1 3 5 none "paid" 1 3 (by decide)

/-- C6: on the edit path every pre-existing `room_statuses` row keeps its
value (dates are written `"booked"` only where no row exists), while the
create path overwrites the marked dates to `"booked"`. -/
theorem edit_keeps_create_overwrites (st : StatusTable) (roomId ci co r d : Int)
    (h : ci ≤ co) :
    (st (r, d) ≠ none → markBookedEdit st roomId ci co (r, d) = st (r, d))
    ∧ (st (r, d) = none →
        markBookedEdit st roomId ci co (r, d)
          = if r = roomId ∧ inBookingRange ci co d then some "booked" else none)
    ∧ markBookedCreate st roomId ci co (r, d)
        = (if r = roomId ∧ inBookingRange ci co d then some "booked" else st (r, d)) := by
  refine ⟨?_, ?_, ?_⟩
  · intro hne
    simp only [markBookedEdit, foldl_upsertKeep_apply]
    rw [if_neg]
    intro ⟨_, _, hnone⟩
    exact hne hnone
  · intro hnone
    simp [markBookedEdit, foldl_upsertKeep_apply, mem_markDates ci co d h, hnone]
  · simp only [markBookedCreate, foldl_upsertOverwrite_apply,
      mem_markDates ci co d h]

/-- Witness for C6: the pre-existing `"occupied"` row on day 3 survives an
edit over days 3–5, while the create path turns it into `"booked"`. -/
theorem edit_keeps_create_overwrites_witness :
    markBookedEdit stW 1 3 5 (1, 3) = stW (1, 3)
    ∧ markBookedCreate stW 1 3 5 (1, 3)
        = (if (1 : Int) = 1 ∧ inBookingRange 3 5 3 then some "booked" else stW (1, 3)) := by
  have h := edit_keeps_create_overwrites stW 1 3 5 1 3 (by decide)
  exact ⟨h.1 (by decide), h.2.2⟩

/-- C10: a successfully created booking stores `total_amount = rate × nights`
(`nights = check_out − check_in`): NULL when no rate is submitted, and `0`
for a same-day booking even though that booking still marks its check-in day
as booked. -/
theorem add_booking_total_amount (st : StatusTable) (roomId ci co : Int) (r : ℚ)
    (ds : String) (h : ci ≤ co) :
    (∃ res, add_booking st roomId ci co (some r) ds = some res ∧
      res.1.total_amount = some (r * ((co - ci : Int) : ℚ)))
    ∧ (∃ res, add_booking st roomId ci co none ds = some res ∧
      res.1.total_amount = none)
    ∧ (∃ res, add_booking st roomId ci ci (some r) ds = some res ∧
      res.1.total_amount = some 0 ∧ res.2 (roomId, ci) = some "booked") := by
  have hno : ¬ (co - ci < 0) := by omega
  have h1 : add_booking st roomId ci co (some r) ds
      = some ({ check_in := ci, check_out := co, status := ds,
                total_amount := some (r * ((co - ci : Int) : ℚ)) },
              markBookedCreate st roomId ci co) := by
    simp [add_booking, hno]
  have h2 : add_booking st roomId ci co none ds
      = some ({ check_in := ci, check_out := co, status := ds,
                total_amount := none },
              markBookedCreate st roomId ci co) := by
    simp [add_booking, hno]
  have h3 : add_booking st roomId ci ci (some r) ds
      = some ({ check_in := ci, check_out := ci, status := ds,
                total_amount := some 0 },
              markBookedCreate st roomId ci ci) := by
    simp [add_booking]
  have h4 : markBookedCreate st roomId ci ci (roomId, ci) = some "booked" := by
    simp only [markBookedCreate, foldl_upsertOverwrite_apply,
      mem_markDates ci ci ci le_rfl]
    simp [inBookingRange]
  exact ⟨⟨_, h1, rfl⟩, ⟨_, h2, rfl⟩, ⟨_, h3, rfl, h4⟩⟩

/-- Witness for C10: a same-day booking with rate 100 stores total 0 and
marks its single day as booked. -/
theorem add_booking_total_amount_witness :
    ∃ res, add_booking stW 2 4 4 (some 100) "paid" = some res ∧
      res.1.total_amount = some 0 ∧ res.2 (2, 4) = some "booked" :=
  (add_booking_total_amount stW 2 4 4 100 "paid" le_rfl).2.2

lemma freeRoomSearch_mem (rooms : List Room) (bookings : List Booking)
    (cf : Option String) (s e : Int) (h : s ≤ e) :
    ∃ l, freeRoomSearch rooms bookings cf s e = some l
      ∧ ∀ r : Room, r ∈ l ↔ r ∈ rooms ∧ complexMatches cf r = true ∧
          ¬ ∃ b ∈ bookings, b.room_id = r.id ∧ bookingConflicts b s e = true := by
  refine ⟨_, by rw [freeRoomSearch, if_pos h], ?_⟩
  intro r
  rw [List.mem_filter]
  constructor
  · rintro ⟨hmem, hp⟩
    rw [Bool.and_eq_true] at hp
    refine ⟨hmem, hp.1, ?_⟩
    rintro ⟨b, hb, hid, hcf⟩
    have hall := hp.2
    rw [Bool.not_eq_true', List.any_eq_false] at hall
    have hfalse := hall b hb
    simp [hid, hcf] at hfalse
  · rintro ⟨hmem, hcm, hnc⟩
    refine ⟨hmem, ?_⟩
    rw [Bool.and_eq_true]
    refine ⟨hcm, ?_⟩
    rw [Bool.not_eq_true', List.any_eq_false]
    intro b hb
    by_contra hbc
    simp only [Bool.not_eq_false, Bool.and_eq_true, beq_iff_eq] at hbc
    exact hnc ⟨b, hb, hbc.1, hbc.2⟩

/-- C3: for a valid range `start ≤ end`, the free-room search returns
exactly the rooms (restricted to the selected complex when a filter is
given) with no booking satisfying
`NOT (checkout ≤ start OR checkin ≥ end)`, in the `ORDER BY room_number`
order of the underlying room scan. -/
theorem free_room_search_correct (rooms : List Room) (bookings : List Booking)
    (cf : Option String) (s e : Int) (h : s ≤ e) :
    ∃ l, freeRoomSearch rooms bookings cf s e = some l
      ∧ (∀ r : Room, r ∈ l ↔ r ∈ rooms ∧ complexMatches cf r = true ∧
          ¬ ∃ b ∈ bookings, b.room_id = r.id ∧ bookingConflicts b s e = true)
      ∧ (List.Pairwise (fun a b : Room => a.room_number ≤ b.room_number) rooms →
         List.Pairwise (fun a b : Room => a.room_number ≤ b.room_number) l) := by
  obtain ⟨l, hl, hmem⟩ := freeRoomSearch_mem rooms bookings cf s e h
  refine ⟨l, hl, hmem, ?_⟩
  intro hsorted
  have : l = rooms.filter (fun r =>
      complexMatches cf r &&
        !(bookings.any (fun b => b.room_id == r.id && bookingConflicts b s e))) := by
    rw [freeRoomSearch, if_pos h] at hl
    exact (Option.some.inj hl).symm
  rw [this]
  exact List.Pairwise.filter _ hsorted

/-- Witness for C3: a search over days 0–5 excludes room 1 because of its
booking on days 2–4. -/
theorem free_room_search_correct_witness :
    ∃ l, freeRoomSearch [roomW] [bookingW] none 0 5 = some l
      ∧ (∀ r : Room, r ∈ l ↔ r ∈ [roomW] ∧ complexMatches none r = true ∧
          ¬ ∃ b ∈ [bookingW], b.room_id = r.id ∧ bookingConflicts b 0 5 = true)
      ∧ (List.Pairwise (fun a b : Room => a.room_number ≤ b.room_number) [roomW] →
         List.Pairwise (fun a b : Room => a.room_number ≤ b.room_number) l) :=
  free_room_search_correct [roomW] [bookingW] none 0 5 (by decide)

/-- Counterexample to C4: a booking whose check-in equals the search's end
date `E = 5` is NOT treated as conflicting — the code's condition is
`checkin < E`, not `checkin < E + 1` — so its room is returned while the
claim's predicate would exclude it. -/
theorem free_room_end_boundary_cx :
    freeRoomSearch [roomW] [bEdgeW] none 0 5 = some [roomW]
    ∧ freeRoomsClaimC4 [roomW] [bEdgeW] 0 5 = [] := by decide

/-- C4 amended: the free-room search over `[S, E]` returns exactly the rooms
with no booking satisfying `checkin < E AND checkout > S`; in particular a
booking whose check-in equals `E` does not conflict and its room is
returned. -/
theorem free_room_end_boundary (rooms : List Room) (bookings : List Booking)
    (s e : Int) (h : s ≤ e) :
    (∀ b : Booking, bookingConflicts b s e = true ↔ b.check_in < e ∧ b.check_out > s)
    ∧ (∀ b : Booking, b.check_in = e → bookingConflicts b s e = false)
    ∧ ∃ l, freeRoomSearch rooms bookings none s e = some l
        ∧ ∀ r : Room, r ∈ l ↔ r ∈ rooms ∧
            ¬ ∃ b ∈ bookings, b.room_id = r.id ∧ b.check_in < e ∧ b.check_out > s := by
  have hconf : ∀ b : Booking,
      bookingConflicts b s e = true ↔ b.check_in < e ∧ b.check_out > s := by
    intro b
    simp only [bookingConflicts, Bool.not_eq_true', Bool.or_eq_false_iff,
      decide_eq_false_iff_not, not_le, ge_iff_le]
    omega
  refine ⟨hconf, ?_, ?_⟩
  · intro b hb
    rcases Bool.eq_false_or_eq_true (bookingConflicts b s e) with ht | hf
    · have hx := (hconf b).mp ht
      omega
    · exact hf
  · obtain ⟨l, hl, hmem⟩ := freeRoomSearch_mem rooms bookings none s e h
    refine ⟨l, hl, ?_⟩
    intro r
    rw [hmem r]
    constructor
    · rintro ⟨hr, _, hnc⟩
      refine ⟨hr, ?_⟩
      rintro ⟨b, hb, hid, hlt, hgt⟩
      exact hnc ⟨b, hb, hid, (hconf b).mpr ⟨hlt, hgt⟩⟩
    · rintro ⟨hr, hnc⟩
      refine ⟨hr, rfl, ?_⟩
      rintro ⟨b, hb, hid, hcf⟩
      obtain ⟨hlt, hgt⟩ := (hconf b).mp hcf
      exact hnc ⟨b, hb, hid, hlt, hgt⟩

/-- Witness for the amended C4 at the boundary input: range `[0, 5]` with a
booking checking in on day 5. -/
theorem free_room_end_boundary_witness :
    (∀ b : Booking, bookingConflicts b 0 5 = true ↔ b.check_in < 5 ∧ b.check_out > 0)
    ∧ (∀ b : Booking, b.check_in = 5 → bookingConflicts b 0 5 = false)
    ∧ ∃ l, freeRoomSearch [roomW] [bEdgeW] none 0 5 = some l
        ∧ ∀ r : Room, r ∈ l ↔ r ∈ [roomW] ∧
            ¬ ∃ b ∈ [bEdgeW], b.room_id = r.id ∧ b.check_in < 5 ∧ b.check_out > 0 :=
  free_room_end_boundary [roomW] [bEdgeW] 0 5 (by decide)

/-- C5: a booking intersecting the dashboard window with at least one night
contributes exactly `total_amount / total_nights × overlap_nights` to its
room's revenue, with `overlap_nights = min(check_out, end+1) − max(check_in,
start)`. -/
theorem per_room_prorated_revenue (agg : PerRoomAgg) (ci co s e : Int) (a : ℚ)
    (h1 : s ≤ e) (h2 : ci < co) (h3 : s < co) (h4 : ci < e + 1) :
    (aggBooking agg ci co (some a) s e).revenue
      = agg.revenue
        + a / ((co - ci : Int) : ℚ) * ((min co (e + 1) - max ci s : Int) : ℚ) := by
  unfold aggBooking
  rw [if_neg (by omega)]
  dsimp only
  rw [if_pos (by omega)]

/-- Witness for C5, the spec's scenario with dates as day numbers counted
from 2025-01-01: check-in 2025-09-28 (day 270), check-out 2025-10-03
(day 275), total 500, window 2025-10-01 (day 273) to 2025-10-31 (day 303):
the contribution is 500/5×2 = 200. -/
theorem per_room_prorated_revenue_witness :
    (aggBooking ⟨0, 0, 0⟩ 270 275 (some 500) 273 303).revenue = 200 := by
  rw [per_room_prorated_revenue ⟨0, 0, 0⟩ 270 275 273 303 500 (by decide) (by decide)
    (by decide) (by decide)]
  norm_num

/-- C7: the dashboard KPI guards: occupancy 0 when available nights are 0
(in particular with 0 rooms), ADR 0 when sold nights are 0, RevPAR 0 when
available nights are 0. -/
theorem dashboard_kpi_zero_guards (sold rev : ℚ) (pd : Int) :
    occupancyPct sold 0 = 0 ∧ adr rev 0 = 0 ∧ revpar rev 0 = 0
    ∧ occupancyPct sold ((nightsAvailable 0 pd : Int) : ℚ) = 0 := by
  refine ⟨?_, ?_, ?_, ?_⟩ <;> simp [occupancyPct, adr, revpar, nightsAvailable]

/-- Counterexample to C8: the dashboard swaps the reversed range 5 > 3, but
the calendar free-room search does not — it skips the query entirely
(`available_rooms` stays `None`) instead of proceeding on `[3, 5]`. -/
theorem reversed_range_not_swapped_cx :
    dashboardNormalizeRange 5 3 = (3, 5)
    ∧ freeRoomSearch [roomW] [] none 5 3 = none
    ∧ freeRoomSearch [roomW] [] none 3 5 = some [roomW] := by decide

/-- C8 amended: on a reversed range the dashboard silently swaps and
proceeds on `[end, start]`, while the calendar free-room search performs no
search at all. -/
theorem reversed_range_behavior (rooms : List Room) (bookings : List Booking)
    (cf : Option String) (s e : Int) (h : e < s) :
    dashboardNormalizeRange s e = (e, s)
    ∧ freeRoomSearch rooms bookings cf s e = none := by
  constructor
  · rw [dashboardNormalizeRange, if_pos h]
  · rw [freeRoomSearch, if_neg (not_le.mpr h)]

/-- Witness for the amended C8 at the reversed range (5, 3). -/
theorem reversed_range_behavior_witness :
    dashboardNormalizeRange 5 3 = (3, 5)
    ∧ freeRoomSearch [roomW] [bookingW] none 5 3 = none :=
  reversed_range_behavior [roomW] [bookingW] none 5 3 (by decide)

/-- Counterexample to C9: a zero-length booking on day 5 covers its
check-in day on the calendar, is marked booked on that day, and is fetched
by the dashboard's window query for `[1, 10]` — yet its sold-nights
contribution is 0, not 1. -/
theorem zero_length_dashboard_cx :
    bookingCoversDate zeroW 5 = true
    ∧ markDates 5 5 = [5]
    ∧ zeroW.check_out > 1 ∧ zeroW.check_in < 10 + 1
    ∧ soldNightsDelta zeroW.check_in zeroW.check_out 1 10 = 0
    ∧ ¬ soldNightsDelta zeroW.check_in zeroW.check_out 1 10 = 1 := by decide

/-- C9 amended: a zero-length booking is treated as occupying its single
check-in day by the calendar grid and by `add_booking`'s status marking, but
the dashboard's sold-night count gives it 0 nights (the clamped overlap is
never positive). -/
theorem zero_length_single_day (b : Booking) (d s e : Int)
    (h : b.check_in = b.check_out) :
    (bookingCoversDate b d = true ↔ d = b.check_in)
    ∧ markDates b.check_in b.check_out = [b.check_in]
    ∧ soldNightsDelta b.check_in b.check_out s e = 0 := by
  refine ⟨?_, ?_, ?_⟩
  · simp [bookingCoversDate, h.ge]
  · rw [markDates, if_pos h.ge]
  · rw [soldNightsDelta, if_neg (by omega)]

/-- Witness for the amended C9 at the concrete zero-length booking. -/
theorem zero_length_single_day_witness :
    (bookingCoversDate zeroW 5 = true ↔ (5 : Int) = zeroW.check_in)
    ∧ markDates zeroW.check_in zeroW.check_out = [zeroW.check_in]
    ∧ soldNightsDelta zeroW.check_in zeroW.check_out 1 10 = 0 :=
  zero_length_single_day zeroW 5 1 10 rfl

end Moksli05
